import Mathlib

/-!
Shallow embedding of the dog-dash verification harness scripts
(src/verification/verify_asteroid.py, verify_horizon.py, verify_level_2.py,
verify_load.py, verify_reentry.py, verify_waterfall.py).

Each script drives one Playwright page through a straight-line sequence of
page operations.  We model a page operation as a `PageOp`, an environment as
an outcome oracle `Nat → Option String` giving for the n-th operation either
`none` (success) or `some msg` (the operation raises an exception with
message `msg`), and each script as a function from that oracle to a trace
record mirroring the script control flow (try / except / finally) exactly.
-/

/-- A single page operation as issued by the scripts.  Constructors follow
the Playwright calls appearing in the source: `goto`, `wait_for_selector`
(with optional explicit timeout), `wait_for_timeout`, `click` (with its
`force` flag), `keyboard.press`, `evaluate`, `screenshot`, `is_visible`,
`inner_text`, `content`, and the python-side `time.sleep`. -/
inductive PageOp where
  | goto (url : String)
  | waitForSelector (sel : String) (timeoutMs : Option Nat)
  | waitForTimeout (ms : Nat)
  | sleep (ms : Nat)
  | click (sel : String) (force : Bool)
  | pressKey (key : String)
  | evaluate (src : String)
  | screenshot (path : String)
  | isVisible (sel : String)
  | innerText (sel : String)
  | content
  deriving DecidableEq, Repr

/-- Outcome oracle: for the i-th operation of a run, `none` means the
operation succeeds, `some msg` means it raises an exception whose message
is `msg`. -/
def Outcome : Type := Nat → Option String

/-- Run a straight-line sequence of page operations starting at position
`start`, stopping at the first operation that raises (python exception
semantics: the raising statement is the last one executed).  Returns the
list of operations actually attempted and the propagating exception
message, if any. -/
def runScript (o : Outcome) : Nat → List PageOp → List PageOp × Option String
  | _, [] => ([], none)
  | i, op :: rest =>
    match o i with
    | some msg => ([op], some msg)
    | none =>
      let r := runScript o (i + 1) rest
      (op :: r.1, r.2)

/-- Result of one whole script invocation (its `__main__` behaviour). -/
structure ScriptRun where
  /-- page operations attempted, in order -/
  ops : List PageOp
  /-- whether `browser.close()` was executed -/
  closed : Bool
  /-- exception caught and printed by the script itself (`except` clause) -/
  caught : Option String
  /-- exception propagating uncaught out of the script entry point -/
  raised : Option String
  /-- explicit process exit status requested via `sys.exit` -/
  exitCode : Option Nat
  deriving DecidableEq, Repr

/-- The steps of `verify_asteroids` (verify_asteroid.py, body of the
function): goto, wait for `canvas`, click `#instructions`, wait 2000ms,
screenshot `verification/level1.png`. -/
def asteroidSteps : List PageOp :=
  [ .goto "http://localhost:4173"
  , .waitForSelector "canvas" none
  , .click "#instructions" false
  , .waitForTimeout 2000
  , .screenshot "verification/level1.png" ]

/-- verify_asteroid.py `__main__`: launch, new page, `try:` run the steps
`finally:` close.  On a step exception the `finally` closes the browser and
the exception then propagates uncaught. -/
def verify_asteroids_main (launchOk : Bool) (o : Outcome) : ScriptRun :=
  if launchOk then
    let r := runScript o 0 asteroidSteps
    { ops := r.1, closed := true, caught := none, raised := r.2, exitCode := none }
  else
    { ops := [], closed := false, caught := none
    , raised := some "LaunchError", exitCode := none }

/-- The single-quote character, used inside injected JS source text. -/
def jsQuote : String := String.singleton (Char.ofNat 39)

/-- The JS source injected by verify_horizon.py line 22:
`document.getElementById(<jsQuote>instructions<jsQuote>).click()`. -/
def horizonClickSource : String :=
  "document.getElementById(" ++ jsQuote ++ "instructions" ++ jsQuote ++ ").click()"

/-- The JS source injected by verify_waterfall.py lines 27-37: a block that
consists solely of `//` comment lines, hence a no-op when evaluated. -/
def waterfallNoopSource : String :=
  "// comment-only injection block (lines 28-36 of verify_waterfall.py)"

/-- The steps of `verify_horizon` (verify_horizon.py): goto, wait for
`#glCanvas`, wait 4000ms, `is_visible` on `#instructions`, evaluate a JS
click on the instructions element, wait 2000ms, screenshot. -/
def horizonSteps : List PageOp :=
  [ .goto "http://localhost:4173"
  , .waitForSelector "#glCanvas" none
  , .waitForTimeout 4000
  , .isVisible "#instructions"
  , .evaluate horizonClickSource
  , .waitForTimeout 2000
  , .screenshot "verification/level3_horizon.png" ]

/-- The body of the `verify_horizon` function itself: runs the steps; the
second component is the exception propagating out of the function to its
caller, if any. -/
def verify_horizon (o : Outcome) : List PageOp × Option String :=
  runScript o 0 horizonSteps

/-- verify_horizon.py `__main__`: launch, new page, `try:` steps
`except Exception as e:` print `finally:` close.  A step exception is
caught and printed; the browser is always closed. -/
def verify_horizon_main (launchOk : Bool) (o : Outcome) : ScriptRun :=
  if launchOk then
    let r := verify_horizon o
    { ops := r.1, closed := true, caught := r.2, raised := none, exitCode := none }
  else
    { ops := [], closed := false, caught := none
    , raised := some "LaunchError", exitCode := none }

/-- The steps of `verify_level_2` (verify_level_2.py): goto, wait for
`#instructions`, click it, wait 3000ms, screenshot, read the level text. -/
def level2Steps : List PageOp :=
  [ .goto "http://localhost:4173"
  , .waitForSelector "#instructions" none
  , .click "#instructions" false
  , .waitForTimeout 3000
  , .screenshot "verification/level2_asteroids.png"
  , .innerText "#level-display" ]

/-- verify_level_2.py `__main__`: launch, new page, `try:` steps
`finally:` close.  On a step exception the browser is closed and the
exception propagates uncaught. -/
def verify_level_2_main (launchOk : Bool) (o : Outcome) : ScriptRun :=
  if launchOk then
    let r := runScript o 0 level2Steps
    { ops := r.1, closed := true, caught := none, raised := r.2, exitCode := none }
  else
    { ops := [], closed := false, caught := none
    , raised := some "LaunchError", exitCode := none }

/-- The steps of `verify_reentry` (verify_reentry.py): goto, wait 5000ms,
force-click `#instructions`, wait 1000ms, press `h`, wait 2000ms,
screenshot `verification/reentry_effect.png`. -/
def reentrySteps : List PageOp :=
  [ .goto "http://localhost:4173"
  , .waitForTimeout 5000
  , .click "#instructions" true
  , .waitForTimeout 1000
  , .pressKey "h"
  , .waitForTimeout 2000
  , .screenshot "verification/reentry_effect.png" ]

/-- verify_reentry.py: launch, new context, new page, then the steps and
`browser.close()` in straight line with NO try/finally around them; the
`with sync_playwright()` block is the only wrapper.  Hence on a step
exception `browser.close()` is never reached and the exception propagates
uncaught out of `verify_reentry` and out of `__main__`. -/
def verify_reentry_main (launchOk : Bool) (o : Outcome) : ScriptRun :=
  if launchOk then
    let r := runScript o 0 reentrySteps
    match r.2 with
    | none =>
      { ops := r.1, closed := true, caught := none, raised := none, exitCode := none }
    | some msg =>
      { ops := r.1, closed := false, caught := none
      , raised := some msg, exitCode := none }
  else
    { ops := [], closed := false, caught := none
    , raised := some "LaunchError", exitCode := none }

/-- The steps of waterfall `run` (verify_waterfall.py): goto, wait for
`#glCanvas`, click `#instructions`, evaluate the commented-out no-op
injection, `time.sleep(2)`, screenshot `verification/level1.png`. -/
def waterfallSteps : List PageOp :=
  [ .goto "http://localhost:4173"
  , .waitForSelector "#glCanvas" none
  , .click "#instructions" false
  , .evaluate waterfallNoopSource
  , .sleep 2000
  , .screenshot "verification/level1.png" ]

/-- verify_waterfall.py `run`: launch, new page, `try:` steps
`except Exception as e:` print, then `browser.close()` after the
try/except.  Because the except clause catches every `Exception`, the
close is reached on both paths. -/
def waterfall_run_main (launchOk : Bool) (o : Outcome) : ScriptRun :=
  if launchOk then
    let r := runScript o 0 waterfallSteps
    { ops := r.1, closed := true, caught := r.2, raised := none, exitCode := none }
  else
    { ops := [], closed := false, caught := none
    , raised := some "LaunchError", exitCode := none }

/-! ## verify_load.py, modelled with its diagnostics listeners

verify_load.py registers two listeners right after creating the page
(lines 11-13):

  errors = []
  page.on("console", lambda msg: errors.append(msg.text) if msg.type == "error" else None)
  page.on("pageerror", lambda exc: errors.append(str(exc)))

Events are push-based: they can arrive at any point while the run is in
progress.  We model the event stream as a function from operation index to
the list of events delivered while that operation is executing (events are
delivered only while the run is still executing operations), plus a list of
events emitted before the listeners were registered, which the listeners
never see. -/

/-- A console message: its Playwright `type` (`error`, `log`, `warning`,
...) and its text. -/
structure ConsoleMsg where
  type : String
  text : String
  deriving DecidableEq, Repr

/-- An event a page can emit: a console message or an uncaught page error
(the PageCrash of the spec). -/
inductive PageEvent where
  | console (msg : ConsoleMsg)
  | pageerror (exc : String)
  deriving DecidableEq, Repr

/-- The effect of one delivered event on the `errors` list, exactly the two
lambdas of verify_load.py lines 12-13: a console message is appended only
when its type is `error`; a page error is always appended. -/
def handleEvent (errors : List String) : PageEvent → List String
  | .console m => if m.type = "error" then errors ++ [m.text] else errors
  | .pageerror exc => errors ++ [exc]

/-- Deliver a burst of events to the listeners in order. -/
def handleEvents (errors : List String) (evs : List PageEvent) : List String :=
  evs.foldl handleEvent errors

/-- What one event contributes to the `errors` list, if anything. -/
def evText : PageEvent → Option String
  | .console m => if m.type = "error" then some m.text else none
  | .pageerror exc => some exc

/-- The steps of `verify_load` (verify_load.py lines 16-31), each with the
`print` that precedes it in the source, if any: goto, wait for `#glCanvas`
with a 10000ms timeout, `time.sleep(2)`, screenshot, `page.content()`. -/
def loadSteps : List (Option String × PageOp) :=
  [ (some "Navigating to app...", .goto "http://localhost:4173")
  , (some "Waiting for canvas...", .waitForSelector "#glCanvas" (some 10000))
  , (none, .sleep 2000)
  , (some "Taking screenshot...", .screenshot "verification/screenshot.png")
  , (none, .content) ]

/-- State of the verify_load step loop after it finishes or aborts. -/
structure LoadLoop where
  /-- page operations attempted, in order -/
  ops : List PageOp
  /-- lines printed so far -/
  printed : List String
  /-- the `errors` diagnostics buffer -/
  errors : List String
  /-- the exception that aborted the loop, if any -/
  fail : Option String
  deriving DecidableEq, Repr

/-- Run the verify_load steps from index `i` with diagnostics buffer
`errs`.  For each step: the events delivered during it are handled by the
listeners, its preceding `print` (if any) runs, then the operation either
raises (aborting the loop with the exception) or succeeds. -/
def runLoadSteps (o : Outcome) (events : Nat → List PageEvent) :
    Nat → List (Option String × PageOp) → List String → LoadLoop
  | _, [], errs => { ops := [], printed := [], errors := errs, fail := none }
  | i, (pr, op) :: rest, errs =>
    let errs := handleEvents errs (events i)
    let pa := pr.toList
    match o i with
    | some msg => { ops := [op], printed := pa, errors := errs, fail := some msg }
    | none =>
      let r := runLoadSteps o events (i + 1) rest errs
      { ops := op :: r.ops, printed := pa ++ r.printed, errors := r.errors
      , fail := r.fail }

/-- `containsAux sub s`: does the character list `sub` occur contiguously
inside `s`?  Checks every suffix of `s` for `sub` as a prefix. -/
def containsAux (sub : List Char) : List Char → Bool
  | [] => sub.isEmpty
  | c :: t => sub.isPrefixOf (c :: t) || containsAux sub t

/-- Model of the python substring test `sub in s`. -/
def containsSub (s sub : String) : Bool := containsAux sub.data s.data

/-- Result of one whole `verify_load()` invocation. -/
structure LoadRun where
  /-- page operations attempted, in order -/
  ops : List PageOp
  /-- every line printed, in order -/
  printed : List String
  /-- the `errors` diagnostics buffer at the end of the run -/
  errors : List String
  /-- whether `browser.close()` was executed -/
  closed : Bool
  /-- process exit status requested via `sys.exit` -/
  exitCode : Option Nat
  /-- exception propagating uncaught, if any -/
  raised : Option String
  deriving DecidableEq, Repr

/-- verify_load.py `verify_load()`: launch, new page, register the two
listeners, `try:` the steps then the WebGPU-content check and the
errors-report prints, `except Exception as e:` print the failure message
and `sys.exit(1)`, `finally:` close.  `preEvents` are events the page
emitted before the listeners were registered on lines 12-13; no listener
observes them.  `pageContent` is the value `page.content()` returns. -/
def verify_load (launchOk : Bool) (o : Outcome) (events : Nat → List PageEvent)
    (preEvents : List PageEvent) (pageContent : String) : LoadRun :=
  if launchOk then
    let r := runLoadSteps o events 0 loadSteps []
    match r.fail with
    | some msg =>
      { ops := r.ops, printed := r.printed ++ ["Verification failed: " ++ msg]
      , errors := r.errors, closed := true, exitCode := some 1, raised := none }
    | none =>
      let p1 := if containsSub pageContent "WebGPU not supported" then
          ["WebGPU not supported warning found (Expected in this env)."]
        else []
      let p2 := if r.errors.isEmpty then ["No console errors."]
        else "Console Errors found:" :: r.errors.map (fun e => "- " ++ e)
      { ops := r.ops, printed := r.printed ++ p1 ++ p2, errors := r.errors
      , closed := true, exitCode := none, raised := none }
  else
    { ops := [], printed := [], errors := [], closed := false
    , exitCode := none, raised := some "LaunchError" }

/-- The events delivered during the first `k` operations starting at
operation index `i`: the attach-to-detach window of a run that attempted
`k` operations. -/
def deliveredEvents (events : Nat → List PageEvent) : Nat → Nat → List PageEvent
  | _, 0 => []
  | i, k + 1 => events i ++ deliveredEvents events (i + 1) k

/-- The paths written by the `screenshot` operations of a trace. -/
def screenshotPaths (ops : List PageOp) : List String :=
  ops.filterMap (fun op => match op with | .screenshot p => some p | _ => none)

/-! ## Spec-modelled BrowserSession lifecycle

The redesigned `BrowserSession` component of the spec (section 4.1) has no
implementation under src/ — the scripts call the Playwright library
directly in its place.  Its lifecycle and `close()` contract are therefore
modelled from the spec. -/

namespace SpecModel

/-- Modelled from the spec: the `lifecycleState` attribute of a
BrowserSession, with values `{Created, Launched, PageOpen, Closed}`
(spec section 3, data model). -/
inductive Lifecycle where
  | created
  | launched
  | pageOpen
  | closed
  deriving DecidableEq, Repr

/-- Modelled from the spec: a BrowserSession owns one browser process and
one page.  `released` counts how many times the browser process resource
has been released, so that exactly-once release is a provable statement. -/
structure BrowserSession where
  isHeadless : Bool
  baseUrl : String
  lifecycleState : Lifecycle
  released : Nat
  deriving DecidableEq, Repr

/-- Modelled from the spec: `launch(headless) -> Session` starts a browser
process (the success case; a `LaunchError` run never yields a session). -/
def launch (headless : Bool) : BrowserSession :=
  { isHeadless := headless, baseUrl := "", lifecycleState := .launched
  , released := 0 }

/-- Modelled from the spec: `openPage(baseUrl)` opens the one page of the
session and navigates it (success case). -/
def openPage (s : BrowserSession) (url : String) : BrowserSession :=
  { s with baseUrl := url, lifecycleState := .pageOpen }

/-- Modelled from the spec: `close()` is idempotent and releases the
browser process; once the session is `Closed`, a further `close()` does
nothing. -/
def close (s : BrowserSession) : BrowserSession :=
  match s.lifecycleState with
  | .closed => s
  | _ => { s with lifecycleState := .closed, released := s.released + 1 }

/-! ## Spec-modelled click actionability

The `click(selector, force)` primitive is likewise a capability consumed
from the automation backend; its actionability behaviour is modelled from
spec section 4.1 and the edge-case policy of section 4.2. -/

/-- A click fixture: whether an element matching the selector is present in
the DOM, whether it is visible, and whether another element fully covers it
in the same screen region. -/
structure ClickFixture where
  present : Bool
  visible : Bool
  covered : Bool
  deriving DecidableEq, Repr

/-- What a click attempt can produce. -/
inductive ClickResult where
  | success
  | interactionError
  | timeout
  deriving DecidableEq, Repr

/-- Modelled from the spec: `click(selector, force)` dispatches a click;
`force=true` bypasses the normal actionability checks (visibility,
not-obscured), while `force=false` performs them and fails (times out
waiting for actionability) when the element is hidden or obscured; a
selector matching no element times out. -/
def click (fix : ClickFixture) (force : Bool) : ClickResult :=
  if !fix.present then .timeout
  else if force then .success
  else if fix.visible && !fix.covered then .success
  else .timeout

end SpecModel

/-! ## DOM model for the verify_horizon JS click trigger

verify_horizon.py line 22 starts the game by evaluating
`document.getElementById(<jsQuote>instructions<jsQuote>).click()` in the
page instead of using the click primitive.  The in-page semantics of that
script is modelled from the spec Evaluate contract (section 4.2: direct
access to the document context, application-thrown errors propagate): DOM
`getElementById` returns the element with the given id if one exists;
`HTMLElement.click()` dispatches a synthetic click with no actionability
or visibility check; calling `.click()` on `null` throws a TypeError. -/

/-- An element of the modelled DOM: its id, whether CSS makes it visible,
and whether another element covers it. -/
structure DomElem where
  id : String
  visible : Bool
  covered : Bool
  deriving DecidableEq, Repr

/-- `document.getElementById`: the first element with the given id. -/
def getElementById (doc : List DomElem) (i : String) : Option DomElem :=
  doc.find? (fun e => e.id = i)

/-- The in-page evaluation of `horizonClickSource`: dispatches a click on
the `instructions` element whatever its visibility, or throws when no such
element exists. -/
def horizonTrigger (doc : List DomElem) : Except String Unit :=
  match getElementById doc "instructions" with
  | some _ => Except.ok ()
  | none => Except.error "TypeError: null has no method click"

/-- The outcome oracle of a verify_horizon run against a page whose DOM is
`doc` and whose other operations all succeed: operation 4 (the evaluate)
behaves as `horizonTrigger doc`. -/
def horizonOutcome (doc : List DomElem) : Outcome := fun i =>
  if i = 4 then
    match horizonTrigger doc with
    | .ok _ => none
    | .error e => some e
  else none

/-! ## Concrete environments used to evaluate the model -/

/-- The oracle under which every operation succeeds. -/
def allOk : Outcome := fun _ => none

/-- The oracle under which exactly the k-th operation raises `msg`. -/
def failAt (k : Nat) (msg : String) : Outcome :=
  fun i => if i = k then some msg else none

/-- An event stream delivering no events at all. -/
def noEvents : Nat → List PageEvent := fun _ => []

/-- An event stream delivering one uncaught page error (a PageCrash) while
operation 1 is executing, and nothing else. -/
def crashEvents : Nat → List PageEvent :=
  fun i => if i = 1 then [.pageerror "Uncaught TypeError: boom"] else []

/-- An event stream delivering one console message of type `log` while
operation 1 is executing, and nothing else. -/
def logEvents : Nat → List PageEvent :=
  fun i => if i = 1 then [.console { type := "log", text := "hello from page" }] else []

/-- An event stream delivering one console message of type `error` while
operation 0 is executing, and nothing else. -/
def earlyErrEvents : Nat → List PageEvent :=
  fun i => if i = 0 then [.console { type := "error", text := "WebGL warning" }] else []

/-! ## First-failure predicate and executor lemmas -/

/-- The i-th operation is the first one to raise. -/
def FirstFailAt (o : Outcome) (i : Nat) : Prop :=
  (o i).isSome ∧ ∀ j, j < i → o j = none

theorem runScript_take (o : Outcome) :
    ∀ (steps : List PageOp) (i start : Nat),
      (∀ j, j < i → o (start + j) = none) → (o (start + i)).isSome →
      i < steps.length →
      runScript o start steps = (steps.take (i + 1), o (start + i)) := by
  intro steps
  induction steps with
  | nil => intro i start _ _ hlen; simp at hlen
  | cons op rest ih =>
    intro i start hnone hsome hlen
    cases i with
    | zero =>
      obtain ⟨msg, hmsg⟩ := Option.isSome_iff_exists.mp (by simpa using hsome)
      simp [runScript, hmsg]
    | succ i' =>
      have h0 : o start = none := by simpa using hnone 0 (Nat.succ_pos i')
      have hnone' : ∀ j, j < i' → o (start + 1 + j) = none := by
        intro j hj
        have h := hnone (j + 1) (by omega)
        rw [show start + (j + 1) = start + 1 + j by omega] at h
        exact h
      have hsome' : (o (start + 1 + i')).isSome := by
        rw [show start + 1 + i' = start + (i' + 1) by omega]
        exact hsome
      have hlen' : i' < rest.length := by
        simpa using Nat.lt_of_succ_lt_succ hlen
      have hrec := ih i' (start + 1) hnone' hsome' hlen'
      rw [show start + (i' + 1) = start + 1 + i' by omega]
      simp [runScript, h0, hrec]

theorem runScript_none (o : Outcome) :
    ∀ (steps : List PageOp) (start : Nat),
      (∀ j, o (start + j) = none) →
      runScript o start steps = (steps, none) := by
  intro steps
  induction steps with
  | nil => intro start _; simp [runScript]
  | cons op rest ih =>
    intro start hnone
    have h0 : o start = none := by simpa using hnone 0
    have hrec := ih (start + 1) (fun j => by
      have h := hnone (j + 1)
      rw [show start + (j + 1) = start + 1 + j by omega] at h
      exact h)
    simp [runScript, h0, hrec]

theorem runScript_ops_take (o : Outcome) :
    ∀ (steps : List PageOp) (start : Nat),
      ∃ k, (runScript o start steps).1 = steps.take k := by
  intro steps
  induction steps with
  | nil => intro start; exact ⟨0, by simp [runScript]⟩
  | cons op rest ih =>
    intro start
    cases ho : o start with
    | some msg => exact ⟨1, by simp [runScript, ho]⟩
    | none =>
      obtain ⟨k, hk⟩ := ih (start + 1)
      exact ⟨k + 1, by simp [runScript, ho, hk]⟩

theorem screenshotPaths_subset {l₁ l₂ : List PageOp} (h : l₁ ⊆ l₂) :
    screenshotPaths l₁ ⊆ screenshotPaths l₂ := by
  intro p hp
  rw [screenshotPaths, List.mem_filterMap] at hp ⊢
  obtain ⟨op, hop, hf⟩ := hp
  exact ⟨op, h hop, hf⟩

theorem handleEvents_eq (evs : List PageEvent) :
    ∀ errs, handleEvents errs evs = errs ++ evs.filterMap evText := by
  induction evs with
  | nil => intro errs; simp [handleEvents]
  | cons e evs ih =>
    intro errs
    have hstep : handleEvent errs e = errs ++ (evText e).toList := by
      cases e with
      | console m =>
        by_cases hm : m.type = "error" <;> simp [handleEvent, evText, hm]
      | pageerror exc => simp [handleEvent, evText]
    calc handleEvents errs (e :: evs)
        = handleEvents (handleEvent errs e) evs := rfl
      _ = handleEvent errs e ++ evs.filterMap evText := ih _
      _ = errs ++ (evText e).toList ++ evs.filterMap evText := by rw [hstep]
      _ = errs ++ (e :: evs).filterMap evText := by
          cases he : evText e <;> simp [List.filterMap_cons, he]

theorem runLoadSteps_indep (o : Outcome) (ev ev' : Nat → List PageEvent) :
    ∀ (steps : List (Option String × PageOp)) (start : Nat)
      (errs errs' : List String),
      (runLoadSteps o ev start steps errs).ops
          = (runLoadSteps o ev' start steps errs').ops ∧
      (runLoadSteps o ev start steps errs).printed
          = (runLoadSteps o ev' start steps errs').printed ∧
      (runLoadSteps o ev start steps errs).fail
          = (runLoadSteps o ev' start steps errs').fail := by
  intro steps
  induction steps with
  | nil => intro start errs errs'; simp [runLoadSteps]
  | cons pr rest ih =>
    intro start errs errs'
    obtain ⟨p, op⟩ := pr
    cases ho : o start with
    | some msg => simp [runLoadSteps, ho]
    | none =>
      obtain ⟨h1, h2, h3⟩ := ih (start + 1) (handleEvents errs (ev start))
        (handleEvents errs' (ev' start))
      simp [runLoadSteps, ho, h1, h2, h3]

theorem runLoadSteps_errors (o : Outcome) (ev : Nat → List PageEvent) :
    ∀ (steps : List (Option String × PageOp)) (start : Nat)
      (errs : List String),
      (runLoadSteps o ev start steps errs).errors =
        errs ++ (deliveredEvents ev start
          (runLoadSteps o ev start steps errs).ops.length).filterMap evText := by
  intro steps
  induction steps with
  | nil => intro start errs; simp [runLoadSteps, deliveredEvents]
  | cons pr rest ih =>
    intro start errs
    obtain ⟨p, op⟩ := pr
    cases ho : o start with
    | some msg =>
      simp [runLoadSteps, ho, deliveredEvents, handleEvents_eq]
    | none =>
      have hrec := ih (start + 1) (handleEvents errs (ev start))
      simp [runLoadSteps, ho] at hrec ⊢
      rw [hrec, handleEvents_eq, deliveredEvents]
      simp [List.filterMap_append, List.append_assoc]

theorem runLoadSteps_take (o : Outcome) (ev : Nat → List PageEvent) :
    ∀ (steps : List (Option String × PageOp)) (i start : Nat)
      (errs : List String),
      (∀ j, j < i → o (start + j) = none) → (o (start + i)).isSome →
      i < steps.length →
      (runLoadSteps o ev start steps errs).ops
          = (steps.take (i + 1)).map Prod.snd ∧
      (runLoadSteps o ev start steps errs).printed
          = (steps.take (i + 1)).filterMap Prod.fst ∧
      (runLoadSteps o ev start steps errs).fail = o (start + i) := by
  intro steps
  induction steps with
  | nil => intro i start errs _ _ hlen; simp at hlen
  | cons pr rest ih =>
    intro i start errs hnone hsome hlen
    obtain ⟨p, op⟩ := pr
    cases i with
    | zero =>
      obtain ⟨msg, hmsg⟩ := Option.isSome_iff_exists.mp (by simpa using hsome)
      simp [runLoadSteps, hmsg]
      cases p <;> simp [List.filterMap_cons]
    | succ i' =>
      have h0 : o start = none := by simpa using hnone 0 (Nat.succ_pos i')
      have hnone' : ∀ j, j < i' → o (start + 1 + j) = none := by
        intro j hj
        have h := hnone (j + 1) (by omega)
        rw [show start + (j + 1) = start + 1 + j by omega] at h
        exact h
      have hsome' : (o (start + 1 + i')).isSome := by
        rw [show start + 1 + i' = start + (i' + 1) by omega]
        exact hsome
      have hlen' : i' < rest.length := by
        simpa using Nat.lt_of_succ_lt_succ hlen
      obtain ⟨h1, h2, h3⟩ := ih i' (start + 1) (handleEvents errs (ev start))
        hnone' hsome' hlen'
      rw [show start + (i' + 1) = start + 1 + i' by omega]
      simp [runLoadSteps, h0, h1, h2, h3]
      cases p <;> simp [List.filterMap_cons]

theorem runLoadSteps_none (o : Outcome) (ev : Nat → List PageEvent) :
    ∀ (steps : List (Option String × PageOp)) (start : Nat)
      (errs : List String),
      (∀ j, o (start + j) = none) →
      (runLoadSteps o ev start steps errs).ops = steps.map Prod.snd ∧
      (runLoadSteps o ev start steps errs).printed
          = steps.filterMap Prod.fst ∧
      (runLoadSteps o ev start steps errs).fail = none := by
  intro steps
  induction steps with
  | nil => intro start errs _; simp [runLoadSteps]
  | cons pr rest ih =>
    intro start errs hnone
    obtain ⟨p, op⟩ := pr
    have h0 : o start = none := by simpa using hnone 0
    obtain ⟨h1, h2, h3⟩ := ih (start + 1) (handleEvents errs (ev start))
      (fun j => by
        have h := hnone (j + 1)
        rw [show start + (j + 1) = start + 1 + j by omega] at h
        exact h)
    simp [runLoadSteps, h0, h1, h2, h3]
    cases p <;> simp [List.filterMap_cons]

theorem runLoadSteps_ops_shape (o : Outcome) (ev : Nat → List PageEvent) :
    ∀ (steps : List (Option String × PageOp)) (start : Nat)
      (errs : List String),
      ∃ k, (runLoadSteps o ev start steps errs).ops
            = (steps.map Prod.snd).take k := by
  intro steps
  induction steps with
  | nil => intro start errs; exact ⟨0, by simp [runLoadSteps]⟩
  | cons pr rest ih =>
    intro start errs
    obtain ⟨p, op⟩ := pr
    cases ho : o start with
    | some msg => exact ⟨1, by simp [runLoadSteps, ho]⟩
    | none =>
      obtain ⟨k, hk⟩ := ih (start + 1) (handleEvents errs (ev start))
      exact ⟨k + 1, by simp [runLoadSteps, ho, hk]⟩

theorem verify_load_ops (o : Outcome) (ev : Nat → List PageEvent)
    (pre : List PageEvent) (c : String) :
    (verify_load true o ev pre c).ops = (runLoadSteps o ev 0 loadSteps []).ops := by
  simp only [verify_load, if_true]
  cases (runLoadSteps o ev 0 loadSteps []).fail <;> simp

theorem verify_load_errors (o : Outcome) (ev : Nat → List PageEvent)
    (pre : List PageEvent) (c : String) :
    (verify_load true o ev pre c).errors
        = (runLoadSteps o ev 0 loadSteps []).errors := by
  simp only [verify_load, if_true]
  cases (runLoadSteps o ev 0 loadSteps []).fail <;> simp

theorem verify_reentry_ops (o : Outcome) :
    (verify_reentry_main true o).ops = (runScript o 0 reentrySteps).1 := by
  simp only [verify_reentry_main, if_true]
  cases (runScript o 0 reentrySteps).2 <;> simp

/-! ## Claim theorems -/

/-- C1: the spec requires the browser session to be closed on every exit
path of every run.  verify_asteroid, verify_horizon, verify_level_2,
verify_load and verify_waterfall honour this (try/finally or an
exception-swallowing except before close), but verify_reentry has no
try/finally: when its forced click raises, `browser.close()` is skipped
and the exception propagates, so the session is not closed on that exit
path. -/
theorem c1_reentry_close_skipped_on_failure :
    (verify_reentry_main true (failAt 2 "Timeout 30000ms exceeded")).closed = false
    ∧ (verify_reentry_main true (failAt 2 "Timeout 30000ms exceeded")).raised
        = some "Timeout 30000ms exceeded"
    ∧ (verify_reentry_main true allOk).closed = true
    ∧ (verify_asteroids_main true (failAt 2 "Timeout 30000ms exceeded")).closed = true
    ∧ (verify_horizon_main true (failAt 2 "Timeout 30000ms exceeded")).closed = true
    ∧ (verify_level_2_main true (failAt 2 "Timeout 30000ms exceeded")).closed = true
    ∧ (waterfall_run_main true (failAt 2 "Timeout 30000ms exceeded")).closed = true
    ∧ (verify_load true (failAt 2 "boom") noEvents [] "").closed = true := by
  decide

/-- C2 counterexample: the claim says a step-level failure never terminates
the process and only LaunchError propagates past the runner.  But a step
failure in verify_load calls `sys.exit(1)` (process terminates with status
1), and a step failure in verify_reentry propagates uncaught. -/
theorem c2_step_failure_terminates_process :
    (verify_load true (failAt 1 "Timeout 10000ms exceeded") noEvents [] "").exitCode
        = some 1
    ∧ (verify_reentry_main true (failAt 3 "InteractionError: page closed")).raised
        = some "InteractionError: page closed" := by
  decide

/-- C2 amended: only verify_horizon and verify_waterfall catch a step
failure and record it without terminating the process; verify_load catches
it but exits the process with status 1; in verify_asteroid, verify_level_2
and verify_reentry the exception propagates uncaught out of the script;
a launch failure propagates in every script. -/
theorem c2_error_propagation_by_script (o : Outcome)
    (ev : Nat → List PageEvent) (pre : List PageEvent) (c : String)
    (msg : String) :
    ((runScript o 0 horizonSteps).2 = some msg →
      (verify_horizon_main true o).caught = some msg
      ∧ (verify_horizon_main true o).raised = none
      ∧ (verify_horizon_main true o).exitCode = none
      ∧ (verify_horizon_main true o).closed = true)
    ∧ ((runScript o 0 waterfallSteps).2 = some msg →
      (waterfall_run_main true o).caught = some msg
      ∧ (waterfall_run_main true o).raised = none
      ∧ (waterfall_run_main true o).exitCode = none
      ∧ (waterfall_run_main true o).closed = true)
    ∧ ((runLoadSteps o ev 0 loadSteps []).fail = some msg →
      (verify_load true o ev pre c).exitCode = some 1
      ∧ (verify_load true o ev pre c).raised = none
      ∧ (verify_load true o ev pre c).closed = true)
    ∧ ((runScript o 0 asteroidSteps).2 = some msg →
      (verify_asteroids_main true o).raised = some msg
      ∧ (verify_asteroids_main true o).caught = none
      ∧ (verify_asteroids_main true o).closed = true)
    ∧ ((runScript o 0 level2Steps).2 = some msg →
      (verify_level_2_main true o).raised = some msg
      ∧ (verify_level_2_main true o).caught = none
      ∧ (verify_level_2_main true o).closed = true)
    ∧ ((runScript o 0 reentrySteps).2 = some msg →
      (verify_reentry_main true o).raised = some msg
      ∧ (verify_reentry_main true o).caught = none
      ∧ (verify_reentry_main true o).closed = false)
    ∧ (verify_horizon_main false o).raised = some "LaunchError"
    ∧ (waterfall_run_main false o).raised = some "LaunchError"
    ∧ (verify_load false o ev pre c).raised = some "LaunchError"
    ∧ (verify_asteroids_main false o).raised = some "LaunchError"
    ∧ (verify_level_2_main false o).raised = some "LaunchError"
    ∧ (verify_reentry_main false o).raised = some "LaunchError" := by
  refine ⟨?_, ?_, ?_, ?_, ?_, ?_, ?_, ?_, ?_, ?_, ?_, ?_⟩
  · intro hf
    simp [verify_horizon_main, verify_horizon, hf]
  · intro hf
    simp [waterfall_run_main, hf]
  · intro hf
    simp [verify_load, hf]
  · intro hf
    simp [verify_asteroids_main, hf]
  · intro hf
    simp [verify_level_2_main, hf]
  · intro hf
    simp [verify_reentry_main, hf]
  · simp [verify_horizon_main]
  · simp [waterfall_run_main]
  · simp [verify_load]
  · simp [verify_asteroids_main]
  · simp [verify_level_2_main]
  · simp [verify_reentry_main]

/-- C2 amended, witness: the amended behaviour evaluated on a concrete
failing wait (operation 1 raising a timeout). -/
theorem c2_error_propagation_by_script_witness :
    (verify_horizon_main true (failAt 1 "Timeout 30000ms exceeded")).caught
        = some "Timeout 30000ms exceeded"
    ∧ (verify_load true (failAt 1 "Timeout 30000ms exceeded") noEvents [] "x").exitCode
        = some 1
    ∧ (verify_reentry_main true (failAt 1 "Timeout 30000ms exceeded")).raised
        = some "Timeout 30000ms exceeded" := by
  have h := c2_error_propagation_by_script (failAt 1 "Timeout 30000ms exceeded")
    noEvents [] "x" "Timeout 30000ms exceeded"
  exact ⟨(h.1 (by decide)).1, ((h.2.2.1 (by decide)).1),
    ((h.2.2.2.2.2.1 (by decide)).1)⟩

/-- C3: in every script, once a step raises, no later step of that
scenario executes: the operations attempted are exactly the first i+1
operations, where i is the index of the first failing operation. -/
theorem c3_attempted_steps_stop_at_first_failure (o : Outcome)
    (ev : Nat → List PageEvent) (pre : List PageEvent) (c : String)
    (i : Nat) (h : FirstFailAt o i) :
    (i < asteroidSteps.length →
      (verify_asteroids_main true o).ops = asteroidSteps.take (i + 1)
      ∧ (verify_asteroids_main true o).ops.length = i + 1)
    ∧ (i < horizonSteps.length →
      (verify_horizon_main true o).ops = horizonSteps.take (i + 1)
      ∧ (verify_horizon_main true o).ops.length = i + 1)
    ∧ (i < level2Steps.length →
      (verify_level_2_main true o).ops = level2Steps.take (i + 1)
      ∧ (verify_level_2_main true o).ops.length = i + 1)
    ∧ (i < reentrySteps.length →
      (verify_reentry_main true o).ops = reentrySteps.take (i + 1)
      ∧ (verify_reentry_main true o).ops.length = i + 1)
    ∧ (i < waterfallSteps.length →
      (waterfall_run_main true o).ops = waterfallSteps.take (i + 1)
      ∧ (waterfall_run_main true o).ops.length = i + 1)
    ∧ (i < loadSteps.length →
      (verify_load true o ev pre c).ops
          = (loadSteps.take (i + 1)).map Prod.snd
      ∧ (verify_load true o ev pre c).ops.length = i + 1) := by
  obtain ⟨hsome, hnone⟩ := h
  have hnone0 : ∀ j, j < i → o (0 + j) = none := by
    intro j hj; simpa using hnone j hj
  have hsome0 : (o (0 + i)).isSome := by simpa using hsome
  refine ⟨?_, ?_, ?_, ?_, ?_, ?_⟩
  · intro hlen
    have hr := runScript_take o asteroidSteps i 0 hnone0 hsome0 hlen
    constructor
    · simp [verify_asteroids_main, hr]
    · simp [verify_asteroids_main, hr, List.length_take]
      omega
  · intro hlen
    have hr := runScript_take o horizonSteps i 0 hnone0 hsome0 hlen
    constructor
    · simp [verify_horizon_main, verify_horizon, hr]
    · simp [verify_horizon_main, verify_horizon, hr, List.length_take]
      omega
  · intro hlen
    have hr := runScript_take o level2Steps i 0 hnone0 hsome0 hlen
    constructor
    · simp [verify_level_2_main, hr]
    · simp [verify_level_2_main, hr, List.length_take]
      omega
  · intro hlen
    have hr := runScript_take o reentrySteps i 0 hnone0 hsome0 hlen
    have hops : (verify_reentry_main true o).ops = reentrySteps.take (i + 1) := by
      rw [verify_reentry_ops, hr]
    constructor
    · exact hops
    · rw [hops]
      simp [List.length_take]
      omega
  · intro hlen
    have hr := runScript_take o waterfallSteps i 0 hnone0 hsome0 hlen
    constructor
    · simp [waterfall_run_main, hr]
    · simp [waterfall_run_main, hr, List.length_take]
      omega
  · intro hlen
    obtain ⟨h1, h2, h3⟩ := runLoadSteps_take o ev loadSteps i 0 [] hnone0 hsome0 hlen
    have hops : (verify_load true o ev pre c).ops
        = (loadSteps.take (i + 1)).map Prod.snd := by
      rw [verify_load_ops, h1]
    constructor
    · exact hops
    · rw [hops]
      simp [List.length_take]
      omega

/-- C3 witness: a wait that raises at operation index 1 stops every script
after two attempted operations. -/
theorem c3_attempted_steps_stop_at_first_failure_witness :
    (verify_asteroids_main true (failAt 1 "TimeoutError")).ops.length = 1 + 1
    ∧ (verify_load true (failAt 1 "TimeoutError") noEvents [] "x").ops.length = 1 + 1 := by
  have hff : FirstFailAt (failAt 1 "TimeoutError") 1 := by
    constructor
    · decide
    · intro j hj
      have hj0 : j = 0 := by omega
      subst hj0
      decide
  have h := c3_attempted_steps_stop_at_first_failure (failAt 1 "TimeoutError")
    noEvents [] "x" 1 hff
  exact ⟨(h.1 (by decide)).2, (h.2.2.2.2.2 (by decide)).2⟩

/-- C4 counterexample: in the code an uncaught page error (PageCrash) is
only appended to the `errors` buffer; it does not terminate the remaining
steps.  A pageerror delivered while operation 1 of verify_load executes is
recorded, yet all five operations — including the later screenshot — still
execute. -/
theorem c4_pagecrash_does_not_abort_steps :
    (verify_load true allOk crashEvents [] "page").errors
        = ["Uncaught TypeError: boom"]
    ∧ (verify_load true allOk crashEvents [] "page").ops.length = 5
    ∧ PageOp.screenshot "verification/screenshot.png"
        ∈ (verify_load true allOk crashEvents [] "page").ops := by
  decide

/-- C4 amended: a PageCrash (pageerror) event is buffered in the errors
list but never aborts the scenario: the operations verify_load attempts do
not depend on the delivered events at all, so every step after an observed
PageCrash still executes unless the step itself raises. -/
theorem c4_events_never_affect_control_flow (o : Outcome)
    (ev ev' : Nat → List PageEvent) (pre pre' : List PageEvent)
    (c c' : String) :
    (verify_load true o ev pre c).ops = (verify_load true o ev' pre' c').ops := by
  rw [verify_load_ops, verify_load_ops]
  exact (runLoadSteps_indep o ev ev' loadSteps 0 [] []).1

/-- C5 counterexample: a console message of type `log` emitted between
attach and detach (delivered while operation 1 executes) is dropped from
the diagnostics buffer, which stays empty — the listeners of verify_load
keep only type-`error` console messages and pageerrors, and tag nothing by
severity. -/
theorem c5_log_event_in_window_is_dropped :
    logEvents 1 = [PageEvent.console { type := "log", text := "hello from page" }]
    ∧ (verify_load true allOk logEvents [] "page").errors = [] := by
  decide

/-- C5 amended: the errors buffer of verify_load contains exactly, in
order, the texts of type-`error` console events and the pageerror events
delivered between listener registration and the end of the run (there is
no detach); console events of other types contribute nothing, no severity
tags are stored, and events emitted before the listeners were registered
(`pre`) never appear. -/
theorem c5_errors_buffer_characterization (o : Outcome)
    (ev : Nat → List PageEvent) (pre : List PageEvent) (c : String) :
    (verify_load true o ev pre c).errors
      = (deliveredEvents ev 0
          (verify_load true o ev pre c).ops.length).filterMap evText := by
  rw [verify_load_errors, verify_load_ops]
  have h := runLoadSteps_errors o ev loadSteps 0 []
  simpa using h

/-- C6 counterexample: when operation 1 (the canvas wait) of verify_load
raises, the run has already buffered a diagnostic, yet it prints only the
failure message — it does not flush the buffered diagnostics, does not
attempt the pending screenshot, and records no step index. -/
theorem c6_no_flush_no_screenshot_on_failure :
    (verify_load true (failAt 1 "Timeout 10000ms exceeded") earlyErrEvents [] "page").errors
        = ["WebGL warning"]
    ∧ (verify_load true (failAt 1 "Timeout 10000ms exceeded") earlyErrEvents [] "page").printed
        = ["Navigating to app...", "Waiting for canvas...",
           "Verification failed: Timeout 10000ms exceeded"]
    ∧ PageOp.screenshot "verification/screenshot.png"
        ∉ (verify_load true (failAt 1 "Timeout 10000ms exceeded") earlyErrEvents [] "page").ops := by
  decide

/-- C6 amended: on a step failure before the screenshot step, verify_load
prints only the step narration lines already emitted plus
`Verification failed: <message>` and exits with status 1; the buffered
diagnostics are not flushed, no best-effort screenshot is attempted, and
the failing step index appears nowhere in the output. -/
theorem c6_failure_reporting (o : Outcome) (ev : Nat → List PageEvent)
    (pre : List PageEvent) (c : String) (i : Nat) (msg : String)
    (h : FirstFailAt o i) (hm : o i = some msg) (hi : i < 3) :
    (verify_load true o ev pre c).printed
        = (loadSteps.take (i + 1)).filterMap Prod.fst
            ++ ["Verification failed: " ++ msg]
    ∧ PageOp.screenshot "verification/screenshot.png"
        ∉ (verify_load true o ev pre c).ops
    ∧ (verify_load true o ev pre c).exitCode = some 1 := by
  obtain ⟨hsome, hnone⟩ := h
  have hnone0 : ∀ j, j < i → o (0 + j) = none := by
    intro j hj; simpa using hnone j hj
  have hsome0 : (o (0 + i)).isSome := by simpa using hsome
  have hlen : i < loadSteps.length := by
    simp [loadSteps]; omega
  obtain ⟨h1, h2, h3⟩ := runLoadSteps_take o ev loadSteps i 0 [] hnone0 hsome0 hlen
  have hfail : (runLoadSteps o ev 0 loadSteps []).fail = some msg := by
    rw [h3]; simpa using hm
  refine ⟨?_, ?_, ?_⟩
  · simp [verify_load, hfail, h2]
  · rw [verify_load_ops, h1]
    interval_cases i <;> decide
  · simp [verify_load, hfail]

/-- C6 amended, witness: a click failure at operation 2 evaluated
concretely. -/
theorem c6_failure_reporting_witness :
    (verify_load true (failAt 2 "InteractionError: page closed") noEvents [] "x").printed
        = (loadSteps.take 3).filterMap Prod.fst
            ++ ["Verification failed: " ++ "InteractionError: page closed"]
    ∧ PageOp.screenshot "verification/screenshot.png"
        ∉ (verify_load true (failAt 2 "InteractionError: page closed") noEvents [] "x").ops
    ∧ (verify_load true (failAt 2 "InteractionError: page closed") noEvents [] "x").exitCode
        = some 1 := by
  have hff : FirstFailAt (failAt 2 "InteractionError: page closed") 2 := by
    constructor
    · decide
    · intro j hj
      interval_cases j <;> decide
  exact c6_failure_reporting (failAt 2 "InteractionError: page closed")
    noEvents [] "x" 2 "InteractionError: page closed" hff (by decide) (by decide)

/-- C7: close() on a BrowserSession is idempotent — closing twice equals
closing once — and a launched session (with or without an opened page) has
its browser process released exactly once however many closes follow.
The BrowserSession implementation is not under src/ (the scripts call the
automation library directly), so this is settled against the spec-modelled
session. -/
theorem c7_close_idempotent_release_once (s : SpecModel.BrowserSession)
    (hd : Bool) (url : String) :
    SpecModel.close (SpecModel.close s) = SpecModel.close s
    ∧ (SpecModel.close (SpecModel.launch hd)).released = 1
    ∧ (SpecModel.close (SpecModel.close (SpecModel.launch hd))).released = 1
    ∧ (SpecModel.close (SpecModel.openPage (SpecModel.launch hd) url)).released = 1
    ∧ (SpecModel.launch hd).released = 0 := by
  refine ⟨?_, rfl, ?_, rfl, rfl⟩
  · obtain ⟨ih, bu, ls, rel⟩ := s
    cases ls <;> rfl
  · rfl

/-- C8: against a fixture whose target element is present but fully covered
by another element in the same screen region, a forced click succeeds while
a non-forced click against the same fixture fails with InteractionError or
times out.  The click primitive is not under src/ (it is a capability of
the automation backend), so this is settled against the spec-modelled
actionability semantics. -/
theorem c8_force_click_bypasses_cover (fix : SpecModel.ClickFixture)
    (hp : fix.present = true) (hc : fix.covered = true) :
    SpecModel.click fix true = SpecModel.ClickResult.success
    ∧ (SpecModel.click fix false = SpecModel.ClickResult.interactionError
       ∨ SpecModel.click fix false = SpecModel.ClickResult.timeout) := by
  refine ⟨?_, Or.inr ?_⟩ <;> simp [SpecModel.click, hp, hc]

/-- C8 witness: the concrete fixture of a present, visible element fully
covered by an overlay. -/
theorem c8_force_click_bypasses_cover_witness :
    SpecModel.click { present := true, visible := true, covered := true } true
        = SpecModel.ClickResult.success
    ∧ (SpecModel.click { present := true, visible := true, covered := true } false
          = SpecModel.ClickResult.interactionError
       ∨ SpecModel.click { present := true, visible := true, covered := true } false
          = SpecModel.ClickResult.timeout) :=
  c8_force_click_bypasses_cover
    { present := true, visible := true, covered := true } rfl rfl

/-- C9 counterexample: a successful run of verify_asteroid writes its one
screenshot to the hard-coded path `verification/level1.png`; a second run
of the same script (the script consults no run identifier and no
configuration) writes the same path again, overwriting the prior image —
and a verify_waterfall run writes that very same path too. -/
theorem c9_fixed_path_overwrites_prior_run :
    screenshotPaths (verify_asteroids_main true allOk).ops
        = ["verification/level1.png"]
    ∧ screenshotPaths (waterfall_run_main true allOk).ops
        = ["verification/level1.png"] := by
  decide

/-- C9 amended: every screenshot step writes one image at a path that is a
hard-coded constant of its script — whatever the environment does, the
paths a run writes are drawn from that fixed list — so successive runs
reuse identical paths and overwrite unconditionally (verify_asteroid and
verify_waterfall even share `verification/level1.png`). -/
theorem c9_screenshot_paths_are_constants (o : Outcome)
    (ev : Nat → List PageEvent) (pre : List PageEvent) (c : String)
    (lk : Bool) :
    screenshotPaths (verify_asteroids_main lk o).ops
        ⊆ ["verification/level1.png"]
    ∧ screenshotPaths (verify_horizon_main lk o).ops
        ⊆ ["verification/level3_horizon.png"]
    ∧ screenshotPaths (verify_level_2_main lk o).ops
        ⊆ ["verification/level2_asteroids.png"]
    ∧ screenshotPaths (verify_reentry_main lk o).ops
        ⊆ ["verification/reentry_effect.png"]
    ∧ screenshotPaths (waterfall_run_main lk o).ops
        ⊆ ["verification/level1.png"]
    ∧ screenshotPaths (verify_load lk o ev pre c).ops
        ⊆ ["verification/screenshot.png"] := by
  cases lk with
  | false =>
    refine ⟨?_, ?_, ?_, ?_, ?_, ?_⟩ <;>
      simp [verify_asteroids_main, verify_horizon_main, verify_level_2_main,
        verify_reentry_main, waterfall_run_main, verify_load, screenshotPaths]
  | true =>
    refine ⟨?_, ?_, ?_, ?_, ?_, ?_⟩
    · obtain ⟨k, hk⟩ := runScript_ops_take o asteroidSteps 0
      have hsub : (verify_asteroids_main true o).ops ⊆ asteroidSteps := by
        simp only [verify_asteroids_main, if_true]
        rw [hk]
        exact List.take_subset k asteroidSteps
      intro p hp
      have := screenshotPaths_subset hsub hp
      simpa [screenshotPaths, asteroidSteps] using this
    · obtain ⟨k, hk⟩ := runScript_ops_take o horizonSteps 0
      have hsub : (verify_horizon_main true o).ops ⊆ horizonSteps := by
        simp only [verify_horizon_main, verify_horizon, if_true]
        rw [hk]
        exact List.take_subset k horizonSteps
      intro p hp
      have := screenshotPaths_subset hsub hp
      simpa [screenshotPaths, horizonSteps] using this
    · obtain ⟨k, hk⟩ := runScript_ops_take o level2Steps 0
      have hsub : (verify_level_2_main true o).ops ⊆ level2Steps := by
        simp only [verify_level_2_main, if_true]
        rw [hk]
        exact List.take_subset k level2Steps
      intro p hp
      have := screenshotPaths_subset hsub hp
      simpa [screenshotPaths, level2Steps] using this
    · obtain ⟨k, hk⟩ := runScript_ops_take o reentrySteps 0
      have hsub : (verify_reentry_main true o).ops ⊆ reentrySteps := by
        rw [verify_reentry_ops, hk]
        exact List.take_subset k reentrySteps
      intro p hp
      have := screenshotPaths_subset hsub hp
      simpa [screenshotPaths, reentrySteps] using this
    · obtain ⟨k, hk⟩ := runScript_ops_take o waterfallSteps 0
      have hsub : (waterfall_run_main true o).ops ⊆ waterfallSteps := by
        simp only [waterfall_run_main, if_true]
        rw [hk]
        exact List.take_subset k waterfallSteps
      intro p hp
      have := screenshotPaths_subset hsub hp
      simpa [screenshotPaths, waterfallSteps] using this
    · obtain ⟨k, hk⟩ := runLoadSteps_ops_shape o ev loadSteps 0 []
      have hsub : (verify_load true o ev pre c).ops ⊆ loadSteps.map Prod.snd := by
        rw [verify_load_ops, hk]
        exact List.take_subset k (loadSteps.map Prod.snd)
      intro p hp
      have := screenshotPaths_subset hsub hp
      simpa [screenshotPaths, loadSteps] using this

/-- C10: the horizon script triggers the game start by evaluating
in-page JS (`document.getElementById(<q>instructions<q>).click()`) rather
than by the click primitive; whenever an element with id `instructions`
exists in the DOM — visible, hidden or covered — the dispatch succeeds and
the whole scenario completes, and when no such element exists the Evaluate
step fails and the error propagates out of `verify_horizon` to its caller,
which catches and records it. -/
theorem c10_horizon_js_click_trigger (doc : List DomElem) :
    (PageOp.evaluate horizonClickSource ∈ horizonSteps
      ∧ ∀ sel f, PageOp.click sel f ∉ horizonSteps)
    ∧ (∀ e, getElementById doc "instructions" = some e →
        horizonTrigger doc = Except.ok ()
        ∧ (verify_horizon (horizonOutcome doc)).2 = none
        ∧ (verify_horizon (horizonOutcome doc)).1 = horizonSteps)
    ∧ (getElementById doc "instructions" = none →
        horizonTrigger doc = Except.error "TypeError: null has no method click"
        ∧ (verify_horizon (horizonOutcome doc)).2
            = some "TypeError: null has no method click"
        ∧ (verify_horizon (horizonOutcome doc)).1 = horizonSteps.take 5
        ∧ (verify_horizon_main true (horizonOutcome doc)).caught
            = some "TypeError: null has no method click") := by
  refine ⟨⟨by decide, ?_⟩, ?_, ?_⟩
  · intro sel f hmem
    simp [horizonSteps] at hmem
  · intro e he
    have ht : horizonTrigger doc = Except.ok () := by
      simp [horizonTrigger, he]
    have hz : ∀ j, horizonOutcome doc (0 + j) = none := by
      intro j
      by_cases hj : j = 4 <;> simp [horizonOutcome, hj, ht]
    have hr := runScript_none (horizonOutcome doc) horizonSteps 0 hz
    exact ⟨ht, by simp [verify_horizon, hr], by simp [verify_horizon, hr]⟩
  · intro hn
    have ht : horizonTrigger doc
        = Except.error "TypeError: null has no method click" := by
      simp [horizonTrigger, hn]
    have ho4 : horizonOutcome doc 4
        = some "TypeError: null has no method click" := by
      simp [horizonOutcome, ht]
    have hnone0 : ∀ j, j < 4 → horizonOutcome doc (0 + j) = none := by
      intro j hj
      have hj4 : ¬ j = 4 := by omega
      simp [horizonOutcome, hj4]
    have hsome0 : (horizonOutcome doc (0 + 4)).isSome := by
      simp [ho4]
    have hr := runScript_take (horizonOutcome doc) horizonSteps 4 0 hnone0 hsome0
      (by decide)
    refine ⟨ht, ?_, ?_, ?_⟩
    · simp [verify_horizon, hr, ho4]
    · simp [verify_horizon, hr]
    · simp [verify_horizon_main, verify_horizon, hr, ho4]

/-- C10 witness: a DOM whose instructions element is invisible and fully
covered (click still dispatched, scenario completes), and the empty DOM
(Evaluate fails and the TypeError reaches and is recorded by the caller). -/
theorem c10_horizon_js_click_trigger_witness :
    horizonTrigger [{ id := "instructions", visible := false, covered := true }]
        = Except.ok ()
    ∧ (verify_horizon (horizonOutcome
        [{ id := "instructions", visible := false, covered := true }])).1
        = horizonSteps
    ∧ (verify_horizon_main true (horizonOutcome ([] : List DomElem))).caught
        = some "TypeError: null has no method click" := by
  have h1 := c10_horizon_js_click_trigger
    [{ id := "instructions", visible := false, covered := true }]
  have h2 := c10_horizon_js_click_trigger ([] : List DomElem)
  have he : getElementById
      [{ id := "instructions", visible := false, covered := true }] "instructions"
      = some { id := "instructions", visible := false, covered := true } := by
    decide
  obtain ⟨ht, -, hall⟩ := h1.2.1 _ he
  obtain ⟨-, -, -, hcaught⟩ := h2.2.2 (by decide)
  exact ⟨ht, hall, hcaught⟩
